import Mathlib

/-!
Shallow embedding of `src/app/auth/router.py` (a FastAPI authentication
router) together with the collaborators it delegates to.  Handlers that are
present in the source are translated line by line; collaborators that the
repository imports but whose code is not in the repository snapshot
(DAO methods, token utilities, auth dependencies, exception classes for
authorization) are modelled from the specification and marked as such in
their doc comments.
-/

namespace AuthRouter

/-- Error taxonomy.  `UserAlreadyExistsException` and
`IncorrectEmailOrPasswordException` are the two exception classes imported by
`router.py`; the spec calls them `DuplicateUser` and `InvalidCredentials`.
`Unauthorized`, `Forbidden` and `DuplicateRole` are the remaining members of
the spec's taxonomy (section 7); the router itself never raises a
`DuplicateRole`-specific exception. -/
inductive ApiError
  | UserAlreadyExistsException
  | IncorrectEmailOrPasswordException
  | DuplicateRole
  | Unauthorized
  | Forbidden
deriving DecidableEq, Repr

/-- A persisted role record (`app.auth.models.Role`): just a unique name. -/
structure Role where
  name : String
deriving DecidableEq, Repr

/-- A persisted user record (`app.auth.models.User`): id, unique email,
unique phone number, stored password, profile fields and a set of role
names. -/
structure User where
  id : Nat
  email : String
  phone_number : String
  password : String
  first_name : String
  last_name : String
  roles : List String
deriving DecidableEq, Repr

/-- The credential store backing the DAOs: all users and all roles. -/
structure Store where
  users : List User
  roles : List Role
deriving DecidableEq, Repr

/-- Registration request schema `SUserRegister`: email, phone_number,
profile fields, password and confirm_password. -/
structure SUserRegister where
  email : String
  phone_number : String
  first_name : String
  last_name : String
  password : String
  confirm_password : String
deriving DecidableEq, Repr

/-- Login request schema `SUserAuth`: email and password. -/
structure SUserAuth where
  email : String
  password : String
deriving DecidableEq, Repr

/-- Insertion schema `SUserAddDB`: the registration data without
`confirm_password`. -/
structure SUserAddDB where
  email : String
  phone_number : String
  first_name : String
  last_name : String
  password : String
deriving DecidableEq, Repr

/-- Role request schema `RoleAddModel`: the role name. -/
structure RoleAddModel where
  name : String
deriving DecidableEq, Repr

/-- `model_dump()` of a registration request: the field dictionary, as an
association list in field order. -/
def SUserRegister.model_dump (u : SUserRegister) : List (String × String) :=
  [("email", u.email), ("phone_number", u.phone_number),
   ("first_name", u.first_name), ("last_name", u.last_name),
   ("password", u.password), ("confirm_password", u.confirm_password)]

/-- `model_dump()` of an insertion record: its field dictionary. -/
def SUserAddDB.model_dump (v : SUserAddDB) : List (String × String) :=
  [("email", v.email), ("phone_number", v.phone_number),
   ("first_name", v.first_name), ("last_name", v.last_name),
   ("password", v.password)]

/-- Python's `dict.pop(key, None)`: the dictionary with the key removed. -/
def dictPop (d : List (String × String)) (k : String) : List (String × String) :=
  d.filter (fun p => p.1 != k)

/-- Dictionary lookup with `""` as default, used to build a schema object
from keyword arguments (`SUserAddDB(**dict)`). -/
def lookupD (d : List (String × String)) (k : String) : String :=
  ((d.find? (fun p => p.1 == k)).map Prod.snd).getD ""

/-- `SUserAddDB(**user_data_dict)`: construct the insertion record from the
dictionary. -/
def SUserAddDB.ofDict (d : List (String × String)) : SUserAddDB :=
  ⟨lookupD d "email", lookupD d "phone_number", lookupD d "first_name",
   lookupD d "last_name", lookupD d "password"⟩

/-- Filters accepted by `UsersDAO.find_one_or_none`: the router passes either
an `EmailModel` or a `PhoneModel`. -/
inductive UserFilter
  | email (e : String)
  | phone_number (p : String)
deriving DecidableEq, Repr

/-- Whether a user record matches a filter. -/
def matchesFilter (f : UserFilter) (u : User) : Bool :=
  match f with
  | .email e => u.email == e
  | .phone_number p => u.phone_number == p

/-- Modelled from the spec: `UsersDAO.find_one_or_none` is not under `src/`.
The Credential Store exposes `find_one_or_none(filter)`, returning the
matching user record or nothing. -/
def find_one_or_none (users : List User) (f : UserFilter) : Option User :=
  users.find? (matchesFilter f)

/-- Modelled from the spec: `RoleDAO.find_one_or_none` is not under `src/`.
Returns the role with the given name, or nothing. -/
def find_one_or_none_role (roles : List Role) (n : String) : Option Role :=
  roles.find? (fun r => r.name == n)

/-- Storage-layer errors: the router catches `sqlalchemy.exc.IntegrityError`. -/
inductive DbError
  | IntegrityError
deriving DecidableEq, Repr

/-- Build a persisted user from an insertion record, with a store-assigned
fresh id. -/
def userOfAddDB (fresh_id : Nat) (v : SUserAddDB) : User :=
  ⟨fresh_id, v.email, v.phone_number, v.password, v.first_name, v.last_name, []⟩

/-- Modelled from the spec: `UsersDAO.add` is not under `src/`.  Section 5:
the storage layer enforces email/phone uniqueness as the source of truth and
signals a violation with an integrity error; otherwise the record is
appended. -/
def UsersDAO.add (db : Store) (values : SUserAddDB) : Except DbError Store :=
  if db.users.any (fun u => u.email == values.email ||
      u.phone_number == values.phone_number) then
    .error .IntegrityError
  else
    .ok { db with users := db.users ++ [userOfAddDB db.users.length values] }

/-- Modelled from the spec: `RoleDAO.add` is not under `src/`.  Appends the
new role record to the store. -/
def RoleDAO.add (db : Store) (values : RoleAddModel) : Store :=
  { db with roles := db.roles ++ [⟨values.name⟩] }

/-- Database operations a handler performs, in order, used to state frame
and short-circuit properties. -/
inductive DbOp
  | findUserByEmail (e : String)
  | findUserByPhone (p : String)
  | addUser (v : SUserAddDB)
  | findRoleByName (n : String)
  | addRole (v : RoleAddModel)
  | findAllUsers
deriving DecidableEq, Repr

/-- Session acquisition mode of an endpoint (`get_session_with_commit` vs
`get_session_without_commit`). -/
inductive SessionKind
  | withCommit
  | withoutCommit
deriving DecidableEq, Repr

/-- Modelled from the spec: token contents are not under `src/`.  A signed
token is an opaque signed value encoding a user id and an expiry. -/
structure SignedToken where
  user_id : Nat
  expiry : Nat
  sig : Nat
deriving DecidableEq, Repr

/-- Modelled from the spec: the Token Issuer/Validator are pure functions of
their input plus a process-wide signing secret.  `sigFn` abstracts the
signature scheme; `now` is the request time; the lifetimes are the
access-token and refresh-token lifetimes. -/
structure SignParams where
  sigFn : Nat → Nat → Nat → Nat
  secret : Nat
  now : Nat
  access_lifetime : Nat
  refresh_lifetime : Nat

/-- Modelled from the spec: mint a signed token for a user id with the given
lifetime. -/
def makeToken (p : SignParams) (uid lifetime : Nat) : SignedToken :=
  ⟨uid, p.now + lifetime, p.sigFn p.secret uid (p.now + lifetime)⟩

/-- Modelled from the spec: a token is valid when its signature checks out
against the process secret and it has not expired. -/
def validToken (p : SignParams) (t : SignedToken) : Bool :=
  t.sig == p.sigFn p.secret t.user_id t.expiry && p.now < t.expiry

/-- An HTTP response under construction: the cookies set on it and the
cookies marked for deletion. -/
structure Response where
  cookies : List (String × SignedToken)
  deleted : List String
deriving DecidableEq, Repr

/-- `response.set_cookie(name, value)`: overwrite the cookie. -/
def Response.set_cookie (r : Response) (k : String) (v : SignedToken) : Response :=
  { r with cookies := (r.cookies.filter (fun c => c.1 != k)) ++ [(k, v)] }

/-- `response.delete_cookie(name)`: remove the cookie and mark it deleted. -/
def Response.delete_cookie (r : Response) (k : String) : Response :=
  { r with cookies := r.cookies.filter (fun c => c.1 != k),
           deleted := r.deleted ++ [k] }

/-- Read a cookie set on a response. -/
def Response.getCookie (r : Response) (k : String) : Option SignedToken :=
  (r.cookies.find? (fun c => c.1 == k)).map Prod.snd

/-- An incoming HTTP request: its cookies. -/
structure Request where
  cookies : List (String × SignedToken)
deriving DecidableEq, Repr

/-- Read a cookie from a request. -/
def Request.getCookie (r : Request) (k : String) : Option SignedToken :=
  (r.cookies.find? (fun c => c.1 == k)).map Prod.snd

/-- Modelled from the spec: `set_tokens` (`app.auth.utils`) is not under
`src/`.  Creates a signed access token (short-lived) and a signed refresh
token (longer-lived) for a user id and writes both as response cookies
`user_access_token` and `user_refresh_token`. -/
def set_tokens (p : SignParams) (r : Response) (uid : Nat) : Response :=
  (r.set_cookie "user_access_token" (makeToken p uid p.access_lifetime)).set_cookie
    "user_refresh_token" (makeToken p uid p.refresh_lifetime)

/-- Modelled from the spec: `authenticate_user` (`app.auth.utils`) is not
under `src/`.  It verifies a submitted password against the stored hash of a
given user; the verification predicate is abstracted as a parameter. -/
def authenticate_user (verify : User → String → Bool) (user : User)
    (password : String) : Bool :=
  verify user password

/-- Modelled from the spec: `get_current_user` (`app.dependencies.auth_dep`)
is not under `src/`.  Extracts the access token from the request cookie,
verifies signature and expiry, resolves it to a user, or fails with
`Unauthorized`. -/
def get_current_user (p : SignParams) (req : Request) (db : Store) :
    Except ApiError User :=
  match req.getCookie "user_access_token" with
  | none => .error .Unauthorized
  | some t =>
    if validToken p t then
      match db.users.find? (fun u => u.id == t.user_id) with
      | some u => .ok u
      | none => .error .Unauthorized
    else .error .Unauthorized

/-- Whether a user has an admin role. -/
def isAdmin (u : User) : Bool :=
  u.roles.contains "admin"

/-- Modelled from the spec: `get_current_admin_user`
(`app.dependencies.auth_dep`) is not under `src/`.  Resolves the current
user; a non-admin user is rejected with `Forbidden`. -/
def get_current_admin_user (p : SignParams) (req : Request) (db : Store) :
    Except ApiError User :=
  match get_current_user p req db with
  | .error e => .error e
  | .ok u => if isAdmin u then .ok u else .error .Forbidden

/-- Modelled from the spec: `check_refresh_token`
(`app.dependencies.auth_dep`) is not under `src/`.  Extracts the refresh
token cookie, validates signature and expiry, resolves the user, or fails
with `Unauthorized`. -/
def check_refresh_token (p : SignParams) (req : Request) (db : Store) :
    Except ApiError User :=
  match req.getCookie "user_refresh_token" with
  | none => .error .Unauthorized
  | some t =>
    if validToken p t then
      match db.users.find? (fun u => u.id == t.user_id) with
      | some u => .ok u
      | none => .error .Unauthorized
    else .error .Unauthorized

/-- `POST /register/` (`register_user`, router.py lines 29-59).  The handler
checks email existence, then phone existence, raising
`UserAlreadyExistsException` on either; otherwise it drops
`confirm_password` from the dumped data, inserts the record, and remaps a
storage `IntegrityError` to `UserAlreadyExistsException`.  `dbCheck` is the
store state observed by the two pre-checks and `dbInsert` the state at
insert time; they coincide (`dbCheck = dbInsert`) in a sequential
execution, and differ only under the check/insert race of spec section 5.
Returns the outcome, the resulting store, and the trace of store
operations performed. -/
def register_user (dbCheck dbInsert : Store) (user_data : SUserRegister) :
    Except ApiError String × Store × List DbOp :=
  match find_one_or_none dbCheck.users (.email user_data.email) with
  | some _ =>
    (.error .UserAlreadyExistsException, dbInsert,
      [.findUserByEmail user_data.email])
  | none =>
    match find_one_or_none dbCheck.users (.phone_number user_data.phone_number) with
    | some _ =>
      (.error .UserAlreadyExistsException, dbInsert,
        [.findUserByEmail user_data.email,
         .findUserByPhone user_data.phone_number])
    | none =>
      let user_data_dict :=
        dictPop (SUserRegister.model_dump user_data) "confirm_password"
      let v := SUserAddDB.ofDict user_data_dict
      match UsersDAO.add dbInsert v with
      | .ok db2 =>
        (.ok "Вы успешно зарегистрированы!", db2,
          [.findUserByEmail user_data.email,
           .findUserByPhone user_data.phone_number, .addUser v])
      | .error .IntegrityError =>
        (.error .UserAlreadyExistsException, dbInsert,
          [.findUserByEmail user_data.email,
           .findUserByPhone user_data.phone_number, .addUser v])

/-- Session mode of `register_user`: `Depends(get_session_with_commit)`. -/
def register_user_session : SessionKind := .withCommit

/-- `POST /login/` (`auth_user`, router.py lines 62-74).  Looks the user up
by email; if absent or password verification fails, raises
`IncorrectEmailOrPasswordException`; otherwise sets both token cookies and
returns success.  Returns the outcome, the response, the (unchanged) store
and the trace of store operations. -/
def auth_user (verify : User → String → Bool) (p : SignParams)
    (response : Response) (db : Store) (user_data : SUserAuth) :
    Except ApiError String × Response × Store × List DbOp :=
  match find_one_or_none db.users (.email user_data.email) with
  | none =>
    (.error .IncorrectEmailOrPasswordException, response, db,
      [.findUserByEmail user_data.email])
  | some user =>
    if authenticate_user verify user user_data.password then
      (.ok "Авторизация успешна!", set_tokens p response user.id, db,
        [.findUserByEmail user_data.email])
    else
      (.error .IncorrectEmailOrPasswordException, response, db,
        [.findUserByEmail user_data.email])

/-- Session mode of `auth_user`: `Depends(get_session_without_commit)`. -/
def auth_user_session : SessionKind := .withoutCommit

/-- `POST /logout` (`logout`, router.py lines 77-81).  Deletes the two token
cookies and returns a success message; it takes no session and touches no
store. -/
def logout (response : Response) : Response × String :=
  ((response.delete_cookie "user_access_token").delete_cookie
      "user_refresh_token",
    "Пользователь успешно вышел из системы")

/-- `GET /all_users/` (`get_all_users`, router.py lines 89-94).  Requires
the admin dependency; on success returns `find_all()`, i.e. every user. -/
def get_all_users (p : SignParams) (req : Request) (db : Store) :
    Except ApiError (List User) :=
  match get_current_admin_user p req db with
  | .error e => .error e
  | .ok _ => .ok db.users

/-- `POST /refresh` (`process_refresh_token`, router.py lines 97-102).
Requires the refresh-token dependency; on success sets a fresh token pair on
the response and returns a success message.  Returns the outcome and the
response (unchanged when the dependency fails, since the handler body never
runs). -/
def process_refresh_token (p : SignParams) (req : Request)
    (response : Response) (db : Store) : Except ApiError String × Response :=
  match check_refresh_token p req db with
  | .error e => (.error e, response)
  | .ok user => (.ok "Токены успешно обновлены", set_tokens p response user.id)

/-- `POST /addroles` (`addroles`, router.py lines 105-118).  Requires the
admin dependency; raises `UserAlreadyExistsException` when a role with the
submitted name exists (the router reuses the user-duplicate exception
here); otherwise round-trips the data through `model_dump` and adds the
role.  Returns the outcome, the resulting store and the trace of store
operations. -/
def addroles (p : SignParams) (req : Request) (db : Store)
    (role_data : RoleAddModel) : Except ApiError String × Store × List DbOp :=
  match get_current_admin_user p req db with
  | .error e => (.error e, db, [])
  | .ok _ =>
    match find_one_or_none_role db.roles role_data.name with
    | some _ =>
      (.error .UserAlreadyExistsException, db, [.findRoleByName role_data.name])
    | none =>
      let role_data_dict := [("name", role_data.name)]
      (.ok "Роль успешно добавлена",
        RoleDAO.add db ⟨lookupD role_data_dict "name"⟩,
        [.findRoleByName role_data.name,
         .addRole ⟨lookupD role_data_dict "name"⟩])

/-- Decidable equality for `Except`, so that handler outcomes can be compared
on concrete inputs. -/
instance {ε α : Type} [DecidableEq ε] [DecidableEq α] :
    DecidableEq (Except ε α) := fun x y =>
  match x, y with
  | .ok a, .ok b =>
    if h : a = b then .isTrue (by rw [h]) else .isFalse (by simp [h])
  | .error e, .error f =>
    if h : e = f then .isTrue (by rw [h]) else .isFalse (by simp [h])
  | .ok _, .error _ => .isFalse (by simp)
  | .error _, .ok _ => .isFalse (by simp)

/-! Concrete fixtures used by counterexample and witness theorems. -/

/-- A concrete signature function for the token fixtures. -/
def sigFn₀ : Nat → Nat → Nat → Nat := fun s u e => s + u + e

/-- Concrete signing parameters: secret 0, time 0, lifetimes 5 and 100. -/
def p₀ : SignParams := ⟨sigFn₀, 0, 0, 5, 100⟩

/-- A concrete admin user. -/
def adminUser₀ : User := ⟨1, "admin@x", "+70000000000", "pw", "Ann", "Admin", ["admin"]⟩

/-- A concrete non-admin user. -/
def plainUser₀ : User := ⟨2, "bob@x", "+71111111111", "pw2", "Bob", "B", ["user"]⟩

/-- A concrete store with the two users and one role. -/
def db₀ : Store := ⟨[adminUser₀, plainUser₀], [⟨"manager"⟩]⟩

/-- A request carrying valid access and refresh tokens of the admin user. -/
def reqAdmin₀ : Request :=
  ⟨[("user_access_token", ⟨1, 10, 11⟩), ("user_refresh_token", ⟨1, 10, 11⟩)]⟩

/-- A request carrying a valid access token of the non-admin user. -/
def reqPlain₀ : Request := ⟨[("user_access_token", ⟨2, 10, 12⟩)]⟩

/-- A request with no cookies. -/
def reqNone₀ : Request := ⟨[]⟩

/-- A request carrying an access token with a bad signature. -/
def reqBad₀ : Request := ⟨[("user_access_token", ⟨1, 10, 999⟩)]⟩

/-- An empty response under construction. -/
def resp₀ : Response := ⟨[], []⟩

/-- A registration request whose email and phone are both fresh in `db₀`. -/
def regFresh₀ : SUserRegister := ⟨"new@x", "+78888888888", "N", "U", "pw", "pw"⟩

/-- A registration request whose email collides with `plainUser₀`. -/
def regDupEmail₀ : SUserRegister := ⟨"bob@x", "+79999999999", "N", "U", "pw", "pw"⟩

/-- A registration request whose phone collides with `plainUser₀`. -/
def regDupPhone₀ : SUserRegister := ⟨"new@x", "+71111111111", "N", "U", "pw", "pw"⟩

/-- The empty store. -/
def emptyStore₀ : Store := ⟨[], []⟩

/-- A concrete password verifier: plain comparison against the stored value. -/
def verify₀ : User → String → Bool := fun u pw => u.password == pw

/-- Claim C1, counterexample.  With an authenticated admin and a store already
holding the role `manager`, `addroles` for `manager` fails with
`UserAlreadyExistsException` (the spec's `DuplicateUser` error), which is not
the `DuplicateRole` error the claim requires. -/
theorem addroles_dup_raises_user_exists :
    get_current_admin_user p₀ reqAdmin₀ db₀ = .ok adminUser₀ ∧
    (addroles p₀ reqAdmin₀ db₀ ⟨"manager"⟩).1 = .error .UserAlreadyExistsException ∧
    (addroles p₀ reqAdmin₀ db₀ ⟨"manager"⟩).1 ≠ .error .DuplicateRole := by
  decide

/-- Claim C1, amended.  For every role-creation request by an authenticated
admin: if a role with the submitted name exists, the operation fails with the
`DuplicateUser` error (`UserAlreadyExistsException`, which the router reuses
for duplicate roles); otherwise the new role is persisted and the operation
succeeds. -/
theorem addroles_role_exists_or_added (p : SignParams) (req : Request)
    (db : Store) (rd : RoleAddModel) (u : User)
    (hadmin : get_current_admin_user p req db = .ok u) :
    (∀ r, find_one_or_none_role db.roles rd.name = some r →
        addroles p req db rd
          = (.error .UserAlreadyExistsException, db, [.findRoleByName rd.name])) ∧
    (find_one_or_none_role db.roles rd.name = none →
        addroles p req db rd
          = (.ok "Роль успешно добавлена",
              { db with roles := db.roles ++ [⟨rd.name⟩] },
              [.findRoleByName rd.name, .addRole ⟨rd.name⟩])) := by
  constructor
  · intro r hr
    simp [addroles, hadmin, hr]
  · intro hn
    simp [addroles, hadmin, hn, RoleDAO.add, lookupD]

/-- Claim C1, witness: the amended theorem applied to a concrete admin request,
once with a duplicate role name and once with a fresh one. -/
theorem addroles_role_exists_or_added_witness :
    addroles p₀ reqAdmin₀ db₀ ⟨"manager"⟩
        = (.error .UserAlreadyExistsException, db₀, [.findRoleByName "manager"]) ∧
    addroles p₀ reqAdmin₀ db₀ ⟨"editor"⟩
        = (.ok "Роль успешно добавлена",
            { db₀ with roles := db₀.roles ++ [⟨"editor"⟩] },
            [.findRoleByName "editor", .addRole ⟨"editor"⟩]) :=
  ⟨(addroles_role_exists_or_added p₀ reqAdmin₀ db₀ ⟨"manager"⟩ adminUser₀ (by decide)).1
      ⟨"manager"⟩ (by decide),
   (addroles_role_exists_or_added p₀ reqAdmin₀ db₀ ⟨"editor"⟩ adminUser₀ (by decide)).2
      (by decide)⟩

/-- Claim C2.  Registration fails with `DuplicateUser` when the email lookup
finds an existing user (with no insert attempted), or when the email lookup
finds nothing but the phone lookup does (again with no insert attempted); and
when both pre-checks pass but the storage-layer insert reports an integrity
(uniqueness) violation, that error is remapped to `DuplicateUser` rather than
propagated. -/
theorem register_user_duplicate_handling (dbCheck dbInsert : Store) (d : SUserRegister) :
    (∀ u, find_one_or_none dbCheck.users (.email d.email) = some u →
       register_user dbCheck dbInsert d
         = (.error .UserAlreadyExistsException, dbInsert, [.findUserByEmail d.email]) ∧
       ∀ v, DbOp.addUser v ∉ (register_user dbCheck dbInsert d).2.2) ∧
    (find_one_or_none dbCheck.users (.email d.email) = none →
       ∀ u, find_one_or_none dbCheck.users (.phone_number d.phone_number) = some u →
       register_user dbCheck dbInsert d
         = (.error .UserAlreadyExistsException, dbInsert,
             [.findUserByEmail d.email, .findUserByPhone d.phone_number]) ∧
       ∀ v, DbOp.addUser v ∉ (register_user dbCheck dbInsert d).2.2) ∧
    (find_one_or_none dbCheck.users (.email d.email) = none →
     find_one_or_none dbCheck.users (.phone_number d.phone_number) = none →
     UsersDAO.add dbInsert
         (SUserAddDB.ofDict (dictPop d.model_dump "confirm_password"))
       = .error .IntegrityError →
     (register_user dbCheck dbInsert d).1 = .error .UserAlreadyExistsException) := by
  refine ⟨?_, ?_, ?_⟩
  · intro u hu
    refine ⟨by simp [register_user, hu], ?_⟩
    intro v
    simp [register_user, hu]
  · intro hn u hu
    refine ⟨by simp [register_user, hn, hu], ?_⟩
    intro v
    simp [register_user, hn, hu]
  · intro hn hp hadd
    simp [register_user, hn, hp, hadd]

/-- Claim C2, witness: a duplicate-email request, a duplicate-phone request,
and a raced insert (empty store at check time, duplicate at insert time) all
fail with `UserAlreadyExistsException` on concrete inputs. -/
theorem register_user_duplicate_handling_witness :
    register_user db₀ db₀ regDupEmail₀
        = (.error .UserAlreadyExistsException, db₀, [.findUserByEmail regDupEmail₀.email]) ∧
    register_user db₀ db₀ regDupPhone₀
        = (.error .UserAlreadyExistsException, db₀,
            [.findUserByEmail regDupPhone₀.email, .findUserByPhone regDupPhone₀.phone_number]) ∧
    (register_user emptyStore₀ db₀ regDupEmail₀).1 = .error .UserAlreadyExistsException :=
  ⟨((register_user_duplicate_handling db₀ db₀ regDupEmail₀).1 plainUser₀ (by decide)).1,
   ((register_user_duplicate_handling db₀ db₀ regDupPhone₀).2.1 (by decide) plainUser₀
      (by decide)).1,
   (register_user_duplicate_handling emptyStore₀ db₀ regDupEmail₀).2.2 (by decide) (by decide)
      (by decide)⟩

/-- Claim C3.  Login with a nonexistent email and login with an existing email
but failing password verification return the same single
`IncorrectEmailOrPasswordException` outcome, with no observable difference;
and login succeeds exactly when the email resolves to a user whose password
verifies. -/
theorem auth_user_enumeration_resistant (verify : User → String → Bool) (p : SignParams)
    (resp : Response) (db : Store) (d1 d2 : SUserAuth) (u : User) :
    (find_one_or_none db.users (.email d1.email) = none →
       (auth_user verify p resp db d1).1 = .error .IncorrectEmailOrPasswordException) ∧
    (find_one_or_none db.users (.email d2.email) = some u → verify u d2.password = false →
       (auth_user verify p resp db d2).1 = .error .IncorrectEmailOrPasswordException) ∧
    (find_one_or_none db.users (.email d1.email) = none →
     find_one_or_none db.users (.email d2.email) = some u → verify u d2.password = false →
       (auth_user verify p resp db d1).1 = (auth_user verify p resp db d2).1) ∧
    ((∃ m, (auth_user verify p resp db d1).1 = .ok m) ↔
       ∃ w, find_one_or_none db.users (.email d1.email) = some w ∧
            verify w d1.password = true) := by
  refine ⟨?_, ?_, ?_, ?_⟩
  · intro h1
    simp [auth_user, h1]
  · intro h2 hv
    simp [auth_user, h2, authenticate_user, hv]
  · intro h1 h2 hv
    simp [auth_user, h1, h2, authenticate_user, hv]
  · cases hF : find_one_or_none db.users (.email d1.email) with
    | none => simp [auth_user, hF]
    | some w =>
      cases hv : verify w d1.password with
      | false => simp [auth_user, hF, authenticate_user, hv]
      | true => simp [auth_user, hF, authenticate_user, hv]

/-- Claim C3, witness: on a concrete store, a nonexistent-email login and a
wrong-password login for an existing user produce the identical error. -/
theorem auth_user_enumeration_resistant_witness :
    (auth_user verify₀ p₀ resp₀ db₀ ⟨"ghost@x", "pw"⟩).1
        = .error .IncorrectEmailOrPasswordException ∧
    (auth_user verify₀ p₀ resp₀ db₀ ⟨"bob@x", "wrong"⟩).1
        = .error .IncorrectEmailOrPasswordException ∧
    (auth_user verify₀ p₀ resp₀ db₀ ⟨"ghost@x", "pw"⟩).1
        = (auth_user verify₀ p₀ resp₀ db₀ ⟨"bob@x", "wrong"⟩).1 :=
  ⟨(auth_user_enumeration_resistant verify₀ p₀ resp₀ db₀ ⟨"ghost@x", "pw"⟩
      ⟨"bob@x", "wrong"⟩ plainUser₀).1 (by decide),
   (auth_user_enumeration_resistant verify₀ p₀ resp₀ db₀ ⟨"ghost@x", "pw"⟩
      ⟨"bob@x", "wrong"⟩ plainUser₀).2.1 (by decide) (by decide),
   (auth_user_enumeration_resistant verify₀ p₀ resp₀ db₀ ⟨"ghost@x", "pw"⟩
      ⟨"bob@x", "wrong"⟩ plainUser₀).2.2.1 (by decide) (by decide) (by decide)⟩

/-- Claim C4.  On every successful registration the record handed to the
store's add operation is the dumped registration data with the
`confirm_password` entry removed, and its persisted field set does not
contain `confirm_password`. -/
theorem register_user_discards_confirm_password (dbCheck dbInsert : Store) (d : SUserRegister)
    (h : (register_user dbCheck dbInsert d).1 = .ok "Вы успешно зарегистрированы!") :
    (register_user dbCheck dbInsert d).2.2
      = [.findUserByEmail d.email, .findUserByPhone d.phone_number,
         .addUser (SUserAddDB.ofDict (dictPop d.model_dump "confirm_password"))] ∧
    (SUserAddDB.ofDict (dictPop d.model_dump "confirm_password")).model_dump
      = dictPop d.model_dump "confirm_password" ∧
    "confirm_password" ∉
      ((SUserAddDB.ofDict (dictPop d.model_dump "confirm_password")).model_dump.map
        Prod.fst) := by
  refine ⟨?_, rfl, ?_⟩
  · cases hE : find_one_or_none dbCheck.users (.email d.email) with
    | some u => simp [register_user, hE] at h
    | none =>
      cases hP : find_one_or_none dbCheck.users (.phone_number d.phone_number) with
      | some u => simp [register_user, hE, hP] at h
      | none =>
        cases hA : UsersDAO.add dbInsert
            (SUserAddDB.ofDict (dictPop d.model_dump "confirm_password")) with
        | error e => cases e; simp [register_user, hE, hP, hA] at h
        | ok db2 => simp [register_user, hE, hP, hA]
  · show "confirm_password" ∉ ["email", "phone_number", "first_name", "last_name", "password"]
    decide

/-- Claim C4, witness: the theorem applied to a concrete fresh registration. -/
theorem register_user_discards_confirm_password_witness :
    (register_user db₀ db₀ regFresh₀).2.2
      = [.findUserByEmail regFresh₀.email, .findUserByPhone regFresh₀.phone_number,
         .addUser (SUserAddDB.ofDict (dictPop regFresh₀.model_dump "confirm_password"))] ∧
    (SUserAddDB.ofDict (dictPop regFresh₀.model_dump "confirm_password")).model_dump
      = dictPop regFresh₀.model_dump "confirm_password" ∧
    "confirm_password" ∉
      ((SUserAddDB.ofDict (dictPop regFresh₀.model_dump "confirm_password")).model_dump.map
        Prod.fst) :=
  register_user_discards_confirm_password db₀ db₀ regFresh₀ (by decide)

/-- Searching a cookie list for a key, after all entries with that key were
filtered out and a fresh entry for it appended, finds exactly the fresh
entry. -/
theorem findKey_filter_append_self (l : List (String × SignedToken)) (k : String)
    (v : SignedToken) :
    ((l.filter (fun c => c.1 != k)) ++ [(k, v)]).find? (fun c => c.1 == k) = some (k, v) := by
  induction l with
  | nil => simp
  | cons a l ih =>
    by_cases h : a.1 = k
    · simp [List.filter_cons, h, ih]
    · simp [List.filter_cons, h, List.find?_cons, ih]

/-- Searching a cookie list for one key is unaffected by overwriting a
different key. -/
theorem findKey_filter_append_other (l : List (String × SignedToken)) (k k2 : String)
    (v : SignedToken) (h : k2 ≠ k) :
    ((l.filter (fun c => c.1 != k)) ++ [(k, v)]).find? (fun c => c.1 == k2)
      = l.find? (fun c => c.1 == k2) := by
  have hk : (k == k2) = false := beq_eq_false_iff_ne.mpr (Ne.symm h)
  induction l with
  | nil => simp [List.find?_cons, hk]
  | cons a l ih =>
    by_cases ha : a.1 = k
    · have h1 : (a.1 != k) = false := by simp [ha]
      have h2 : (a.1 == k2) = false := by rw [ha]; exact hk
      simp [List.filter_cons, List.find?_cons, h1, h2, ih]
    · have h1 : (a.1 != k) = true := by simp [ha]
      by_cases ha2 : a.1 = k2
      · have h2 : (a.1 == k2) = true := by simp [ha2]
        simp [List.filter_cons, List.find?_cons, h1, h2]
      · have h2 : (a.1 == k2) = false := by simp [ha2]
        simp [List.filter_cons, List.find?_cons, h1, h2, ih]

/-- After `set_tokens`, the access-token cookie holds the freshly minted
access token. -/
theorem set_tokens_access_cookie (p : SignParams) (r : Response) (uid : Nat) :
    (set_tokens p r uid).getCookie "user_access_token"
      = some (makeToken p uid p.access_lifetime) := by
  show Option.map Prod.snd
      (((((r.cookies.filter (fun c => c.1 != "user_access_token"))
            ++ [("user_access_token", makeToken p uid p.access_lifetime)]).filter
          (fun c => c.1 != "user_refresh_token"))
        ++ [("user_refresh_token", makeToken p uid p.refresh_lifetime)]).find?
        (fun c => c.1 == "user_access_token"))
    = some (makeToken p uid p.access_lifetime)
  rw [findKey_filter_append_other _ _ _ _ (by decide), findKey_filter_append_self]
  rfl

/-- After `set_tokens`, the refresh-token cookie holds the freshly minted
refresh token. -/
theorem set_tokens_refresh_cookie (p : SignParams) (r : Response) (uid : Nat) :
    (set_tokens p r uid).getCookie "user_refresh_token"
      = some (makeToken p uid p.refresh_lifetime) := by
  show Option.map Prod.snd
      (((((r.cookies.filter (fun c => c.1 != "user_access_token"))
            ++ [("user_access_token", makeToken p uid p.access_lifetime)]).filter
          (fun c => c.1 != "user_refresh_token"))
        ++ [("user_refresh_token", makeToken p uid p.refresh_lifetime)]).find?
        (fun c => c.1 == "user_refresh_token"))
    = some (makeToken p uid p.refresh_lifetime)
  rw [findKey_filter_append_self]
  rfl

/-- Claim C5.  If the refresh token validates and resolves to a user, the
refresh endpoint succeeds and overwrites both cookies with a freshly minted
access/refresh token pair for that user; if validation fails, it fails with
`Unauthorized` and the response (hence its cookies) is unchanged, with no new
tokens issued. -/
theorem process_refresh_token_rotation (p : SignParams) (req : Request)
    (resp : Response) (db : Store) :
    (∀ u, check_refresh_token p req db = .ok u →
       process_refresh_token p req resp db
         = (.ok "Токены успешно обновлены", set_tokens p resp u.id) ∧
       (set_tokens p resp u.id).getCookie "user_access_token"
         = some (makeToken p u.id p.access_lifetime) ∧
       (set_tokens p resp u.id).getCookie "user_refresh_token"
         = some (makeToken p u.id p.refresh_lifetime)) ∧
    (∀ e, check_refresh_token p req db = .error e →
       e = ApiError.Unauthorized ∧
       process_refresh_token p req resp db = (.error e, resp)) := by
  constructor
  · intro u hu
    exact ⟨by simp [process_refresh_token, hu], set_tokens_access_cookie p resp u.id,
      set_tokens_refresh_cookie p resp u.id⟩
  · intro e he
    refine ⟨?_, by simp [process_refresh_token, he]⟩
    unfold check_refresh_token at he
    cases hc : req.getCookie "user_refresh_token" with
    | none =>
      rw [hc] at he
      cases he
      rfl
    | some t =>
      rw [hc] at he
      by_cases hv : validToken p t
      · simp [hv] at he
        cases hf : db.users.find? (fun u => u.id == t.user_id) with
        | none => rw [hf] at he; cases he; rfl
        | some u => rw [hf] at he; cases he
      · simp [hv] at he
        cases he
        rfl

/-- Claim C5, witness: a concrete valid refresh request rotates both cookies;
a concrete cookie-less request fails with `Unauthorized` and leaves the
response untouched. -/
theorem process_refresh_token_rotation_witness :
    (process_refresh_token p₀ reqAdmin₀ resp₀ db₀
        = (.ok "Токены успешно обновлены", set_tokens p₀ resp₀ adminUser₀.id) ∧
     (set_tokens p₀ resp₀ adminUser₀.id).getCookie "user_access_token"
        = some (makeToken p₀ adminUser₀.id p₀.access_lifetime) ∧
     (set_tokens p₀ resp₀ adminUser₀.id).getCookie "user_refresh_token"
        = some (makeToken p₀ adminUser₀.id p₀.refresh_lifetime)) ∧
    (ApiError.Unauthorized = ApiError.Unauthorized ∧
     process_refresh_token p₀ reqNone₀ resp₀ db₀ = (.error .Unauthorized, resp₀)) :=
  ⟨(process_refresh_token_rotation p₀ reqAdmin₀ resp₀ db₀).1 adminUser₀ (by decide),
   (process_refresh_token_rotation p₀ reqNone₀ resp₀ db₀).2 .Unauthorized (by decide)⟩

/-- Claim C6.  The all-users endpoint fails with `Unauthorized` when the
access-token cookie is missing or invalid, fails with `Forbidden` (which is a
different error from `Unauthorized`) when the token resolves to a non-admin
user, and returns every user in the store when it resolves to an admin. -/
theorem get_all_users_access_control (p : SignParams) (req : Request) (db : Store) :
    (req.getCookie "user_access_token" = none →
       get_all_users p req db = .error .Unauthorized) ∧
    (∀ t, req.getCookie "user_access_token" = some t → validToken p t = false →
       get_all_users p req db = .error .Unauthorized) ∧
    (∀ u, get_current_user p req db = .ok u → isAdmin u = false →
       get_all_users p req db = .error .Forbidden) ∧
    (∀ u, get_current_user p req db = .ok u → isAdmin u = true →
       get_all_users p req db = .ok db.users) ∧
    ApiError.Forbidden ≠ ApiError.Unauthorized := by
  refine ⟨?_, ?_, ?_, ?_, by decide⟩
  · intro h
    simp [get_all_users, get_current_admin_user, get_current_user, h]
  · intro t ht hv
    simp [get_all_users, get_current_admin_user, get_current_user, ht, hv]
  · intro u hu ha
    simp [get_all_users, get_current_admin_user, hu, ha]
  · intro u hu ha
    simp [get_all_users, get_current_admin_user, hu, ha]

/-- Claim C6, witness: concrete requests with no token, a tampered token, a
valid non-admin token and a valid admin token take the three branches. -/
theorem get_all_users_access_control_witness :
    get_all_users p₀ reqNone₀ db₀ = .error .Unauthorized ∧
    get_all_users p₀ reqBad₀ db₀ = .error .Unauthorized ∧
    get_all_users p₀ reqPlain₀ db₀ = .error .Forbidden ∧
    get_all_users p₀ reqAdmin₀ db₀ = .ok db₀.users :=
  ⟨(get_all_users_access_control p₀ reqNone₀ db₀).1 (by decide),
   (get_all_users_access_control p₀ reqBad₀ db₀).2.1 ⟨1, 10, 999⟩ (by decide) (by decide),
   (get_all_users_access_control p₀ reqPlain₀ db₀).2.2.1 plainUser₀ (by decide) (by decide),
   (get_all_users_access_control p₀ reqAdmin₀ db₀).2.2.2.1 adminUser₀ (by decide) (by decide)⟩

/-- Claim C7.  Logout, for any response state and with no token cookie
required, deletes exactly the two cookies `user_access_token` and
`user_refresh_token` and returns the success message; the handler is total
(it never fails) and takes no store, so no server-side token state is
touched. -/
theorem logout_clears_both_cookies (resp : Response) :
    logout resp
      = (⟨(resp.cookies.filter (fun c => c.1 != "user_access_token")).filter
            (fun c => c.1 != "user_refresh_token"),
          resp.deleted ++ ["user_access_token", "user_refresh_token"]⟩,
        "Пользователь успешно вышел из системы") := by
  simp [logout, Response.delete_cookie]

/-- Claim C8.  Every successful `addroles` call leaves the user records
untouched (no user is created, modified, or linked to the role) and changes
the role table exactly by appending one record with the submitted name: the
count of roles with that name grows by exactly one, and the only store
operations performed are the role lookup and the role insert. -/
theorem addroles_adds_exactly_one_role (p : SignParams) (req : Request) (db : Store)
    (rd : RoleAddModel)
    (h : (addroles p req db rd).1 = .ok "Роль успешно добавлена") :
    (addroles p req db rd).2.1.users = db.users ∧
    (addroles p req db rd).2.1.roles = db.roles ++ [⟨rd.name⟩] ∧
    (addroles p req db rd).2.2 = [.findRoleByName rd.name, .addRole ⟨rd.name⟩] ∧
    (addroles p req db rd).2.1.roles.countP (fun r => r.name == rd.name)
      = db.roles.countP (fun r => r.name == rd.name) + 1 := by
  cases hA : get_current_admin_user p req db with
  | error e => simp [addroles, hA] at h
  | ok u =>
    cases hR : find_one_or_none_role db.roles rd.name with
    | some r => simp [addroles, hA, hR] at h
    | none =>
      refine ⟨by simp [addroles, hA, hR, RoleDAO.add, lookupD], ?_, ?_, ?_⟩
      · simp [addroles, hA, hR, RoleDAO.add, lookupD]
      · simp [addroles, hA, hR, lookupD]
      · simp [addroles, hA, hR, RoleDAO.add, lookupD, List.countP_append]

/-- Claim C8, witness: the theorem applied to a concrete successful role
creation. -/
theorem addroles_adds_exactly_one_role_witness :
    (addroles p₀ reqAdmin₀ db₀ ⟨"editor"⟩).2.1.users = db₀.users ∧
    (addroles p₀ reqAdmin₀ db₀ ⟨"editor"⟩).2.1.roles = db₀.roles ++ [⟨"editor"⟩] ∧
    (addroles p₀ reqAdmin₀ db₀ ⟨"editor"⟩).2.2
      = [.findRoleByName "editor", .addRole ⟨"editor"⟩] ∧
    (addroles p₀ reqAdmin₀ db₀ ⟨"editor"⟩).2.1.roles.countP (fun r => r.name == "editor")
      = db₀.roles.countP (fun r => r.name == "editor") + 1 :=
  addroles_adds_exactly_one_role p₀ reqAdmin₀ db₀ ⟨"editor"⟩ (by decide)

/-- Claim C9.  Login leaves the store unchanged whether it succeeds or fails,
performs exactly one store operation — the read lookup by email — and runs on
a non-committing session. -/
theorem auth_user_readonly (verify : User → String → Bool) (p : SignParams)
    (resp : Response) (db : Store) (d : SUserAuth) :
    (auth_user verify p resp db d).2.2.1 = db ∧
    (auth_user verify p resp db d).2.2.2 = [DbOp.findUserByEmail d.email] ∧
    auth_user_session = SessionKind.withoutCommit := by
  refine ⟨?_, ?_, rfl⟩ <;>
  · unfold auth_user
    cases hF : find_one_or_none db.users (.email d.email) with
    | none => simp
    | some u => cases hv : authenticate_user verify u d.password <;> simp [hv]

/-- Claim C10.  When the email pre-check finds an existing user, registration
stops there: the store is unchanged, no insert is attempted and the phone
lookup is never performed; when the email check passes but the phone check
finds a user, the store is likewise unchanged with no insert attempted. -/
theorem register_user_precheck_frame (dbCheck dbInsert : Store) (d : SUserRegister) :
    (∀ u, find_one_or_none dbCheck.users (.email d.email) = some u →
       register_user dbCheck dbInsert d
         = (.error .UserAlreadyExistsException, dbInsert, [.findUserByEmail d.email]) ∧
       DbOp.findUserByPhone d.phone_number ∉ (register_user dbCheck dbInsert d).2.2) ∧
    (find_one_or_none dbCheck.users (.email d.email) = none →
     ∀ u, find_one_or_none dbCheck.users (.phone_number d.phone_number) = some u →
       register_user dbCheck dbInsert d
         = (.error .UserAlreadyExistsException, dbInsert,
             [.findUserByEmail d.email, .findUserByPhone d.phone_number])) := by
  constructor
  · intro u hu
    exact ⟨by simp [register_user, hu], by simp [register_user, hu]⟩
  · intro hn u hu
    simp [register_user, hn, hu]

/-- Claim C10, witness: a concrete duplicate-email registration performs only
the email lookup and leaves the store unchanged; a concrete duplicate-phone
registration performs both lookups and leaves the store unchanged. -/
theorem register_user_precheck_frame_witness :
    (register_user db₀ db₀ regDupEmail₀
        = (.error .UserAlreadyExistsException, db₀, [.findUserByEmail regDupEmail₀.email]) ∧
     DbOp.findUserByPhone regDupEmail₀.phone_number
        ∉ (register_user db₀ db₀ regDupEmail₀).2.2) ∧
    register_user db₀ db₀ regDupPhone₀
        = (.error .UserAlreadyExistsException, db₀,
            [.findUserByEmail regDupPhone₀.email, .findUserByPhone regDupPhone₀.phone_number]) :=
  ⟨(register_user_precheck_frame db₀ db₀ regDupEmail₀).1 plainUser₀ (by decide),
   (register_user_precheck_frame db₀ db₀ regDupPhone₀).2 (by decide) plainUser₀ (by decide)⟩

end AuthRouter
